import Mathlib

/-!
Shallow embedding of the ETL pipeline repository
(config.py, exceptions.py, transformer.py, etl_processor.py, s3_client.py,
main.py) and proofs about the claims of its specification.

Modelling conventions:
  * Python exceptions become a `PyExn` value carrying its class (`ExnKind`)
    and its message (`str(e)`); `raise` becomes `Except.error`.
  * Python dicts coming from JSON are association lists in insertion order
    (CPython dicts preserve insertion order, and the json module consumes
    and emits keys in that order).
  * JSON numbers are carried by their literal/repr text, since nothing in
    the repository inspects numeric values: `json.loads`/`json.dumps`
    round-trips a canonical literal such as 4.2 unchanged.
  * Effects delegated to the outside world (the S3 remote, `json.loads`)
    enter the model as explicit arguments holding their outcome, so every
    function stays a pure, executable Lean definition of the repository's
    own control flow.
-/

/-- Python exception classes that appear in the repository: the four
classes declared in exceptions.py (`ETLError` and its three subclasses)
plus the standard-library classes its handlers mention. -/
inductive ExnKind where
  | exception
  | valueError
  | jsonDecodeError
  | attributeError
  | etlError
  | s3Error
  | configurationError
  | transformationError
  deriving DecidableEq, Repr

/-- Method resolution order of each class, read off the `class C(B)`
declarations of exceptions.py (ETLError ⊂ Exception; S3Error,
ConfigurationError, TransformationError ⊂ ETLError) and the standard
library (json.JSONDecodeError ⊂ ValueError ⊂ Exception;
AttributeError ⊂ Exception). -/
def ExnKind.mro : ExnKind → List ExnKind
  | .exception => [.exception]
  | .valueError => [.valueError, .exception]
  | .jsonDecodeError => [.jsonDecodeError, .valueError, .exception]
  | .attributeError => [.attributeError, .exception]
  | .etlError => [.etlError, .exception]
  | .s3Error => [.s3Error, .etlError, .exception]
  | .configurationError => [.configurationError, .etlError, .exception]
  | .transformationError => [.transformationError, .etlError, .exception]

/-- Python `isinstance(e, target)` / `except target` applicability. -/
def ExnKind.isInstanceOf (k target : ExnKind) : Bool :=
  target ∈ k.mro

/-- A raised Python exception: its class and its message (`str(e)`). -/
structure PyExn where
  kind : ExnKind
  msg : String
  deriving DecidableEq, Repr

/-- A JSON-representable Python value, as produced by `json.loads`:
None, bool, number (by its literal text), str, list, dict. -/
inductive Json where
  | null
  | bool (b : Bool)
  | num (lit : String)
  | str (s : String)
  | arr (elems : List Json)
  | obj (fields : List (String × Json))

/-- Python `type(x)` rendered as in an f-string, e.g. <class \x27dict\x27>.
A numeric literal is an int when it has no fractional or exponent part. -/
def Json.pyTypeName : Json → String
  | .null => "<class \x27NoneType\x27>"
  | .bool _ => "<class \x27bool\x27>"
  | .num lit =>
      if lit.toList.any (fun c => c = '.' ∨ c = 'e' ∨ c = 'E') then
        "<class \x27float\x27>"
      else "<class \x27int\x27>"
  | .str _ => "<class \x27str\x27>"
  | .arr _ => "<class \x27list\x27>"
  | .obj _ => "<class \x27dict\x27>"

/-- Short Python type name, as it appears in an AttributeError message. -/
def Json.pyTypeShort : Json → String
  | .null => "NoneType"
  | .bool _ => "bool"
  | .num lit =>
      if lit.toList.any (fun c => c = '.' ∨ c = 'e' ∨ c = 'E') then "float"
      else "int"
  | .str _ => "str"
  | .arr _ => "list"
  | .obj _ => "dict"

/-- Python `x.copy()` on a JSON value: dicts and lists have a `copy`
method returning a shallow copy (equal, as a value, to the original);
every other JSON-representable type has none, so attribute lookup
raises AttributeError. -/
def pyCopy : Json → Except PyExn Json
  | .obj fields => .ok (.obj fields)
  | .arr elems => .ok (.arr elems)
  | v => .error ⟨.attributeError,
      "\x27" ++ v.pyTypeShort ++ "\x27 object has no attribute \x27copy\x27"⟩

namespace TripTransformer

/-- transformer.py, TripTransformer.transform_row: tries `row.copy()` and
returns it; any exception is caught and re-raised as
TransformationError("Failed to transform row: " + str(e)). -/
def transform_row (row : Json) : Except PyExn Json :=
  match pyCopy row with
  | .ok copied => .ok copied
  | .error e => .error ⟨.transformationError, "Failed to transform row: " ++ e.msg⟩

/-- The list comprehension `[self.transform_row(row) for row in rows]`:
rows are processed in order and the first exception propagates. -/
def transformRows : List Json → Except PyExn (List Json)
  | [] => .ok []
  | row :: rest =>
      match transform_row row with
      | .error e => .error e
      | .ok r =>
          match transformRows rest with
          | .error e => .error e
          | .ok rs => .ok (r :: rs)

/-- transformer.py, TripTransformer.transform_batch: runs the
comprehension; `except TransformationError: raise` re-raises it
unchanged, while any other exception is wrapped as
TransformationError("Failed to transform batch: " + str(e)). -/
def transform_batch (rows : List Json) : Except PyExn (List Json) :=
  match transformRows rows with
  | .ok out => .ok out
  | .error e =>
      if e.kind.isInstanceOf .transformationError then .error e
      else .error ⟨.transformationError, "Failed to transform batch: " ++ e.msg⟩

end TripTransformer

/-- Configuration record of config.py (dataclass Config). -/
structure Config where
  aws_region : String
  source_bucket : String
  source_key : String
  destination_bucket : String
  destination_key : String
  aws_access_key_id : Option String := none
  aws_secret_access_key : Option String := none
  log_level : String := "INFO"

/-- The `valid_log_levels` list of Config.validate. -/
def valid_log_levels : List String :=
  ["DEBUG", "INFO", "WARNING", "ERROR", "CRITICAL"]

/-- Python repr of a list of strings, as interpolated by the f-string in
the invalid-log-level message. -/
def pyStrListRepr (xs : List String) : String :=
  "[" ++ String.intercalate ", " (xs.map (fun s => "\x27" ++ s ++ "\x27")) ++ "]"

/-- config.py, Config.validate: checks the five required fields for
emptiness in declaration order (Python `not s` on a string is emptiness),
then membership of `log_level.upper()` in `valid_log_levels`
(`.upper()` modelled by ASCII uppercasing), raising ConfigurationError
with the corresponding message at the first failing check. -/
def Config.validate (c : Config) : Except PyExn Unit :=
  if c.aws_region = "" then
    .error ⟨.configurationError, "AWS region cannot be empty"⟩
  else if c.source_bucket = "" then
    .error ⟨.configurationError, "Source bucket cannot be empty"⟩
  else if c.source_key = "" then
    .error ⟨.configurationError, "Source key cannot be empty"⟩
  else if c.destination_bucket = "" then
    .error ⟨.configurationError, "Destination bucket cannot be empty"⟩
  else if c.destination_key = "" then
    .error ⟨.configurationError, "Destination key cannot be empty"⟩
  else if c.log_level.toUpper ∈ valid_log_levels then .ok ()
  else
    .error ⟨.configurationError,
      "Invalid log level: " ++ c.log_level ++ ". Must be one of "
        ++ pyStrListRepr valid_log_levels⟩

/-- Lowercase hexadecimal digit. -/
def hexDigit (n : Nat) : Char :=
  if n < 10 then Char.ofNat (48 + n) else Char.ofNat (97 + n - 10)

/-- Four lowercase hexadecimal digits, as in a JSON \uXXXX escape. -/
def hex4 (n : Nat) : String :=
  String.mk [hexDigit (n / 4096 % 16), hexDigit (n / 256 % 16),
             hexDigit (n / 16 % 16), hexDigit (n % 16)]

/-- Escape of one character inside a JSON string, following
json.encoder with its default ensure_ascii=True: the two-character
escapes for quote, backslash and the named control characters, \uXXXX
for other characters outside the printable ASCII range 0x20..0x7e,
and a surrogate pair beyond the basic multilingual plane. -/
def escapeChar (c : Char) : String :=
  if c = '\"' then "\\\""
  else if c = '\\' then "\\\\"
  else if c = '\n' then "\\n"
  else if c = '\t' then "\\t"
  else if c = '\r' then "\\r"
  else if c.toNat = 8 then "\\b"
  else if c.toNat = 12 then "\\f"
  else if 32 ≤ c.toNat ∧ c.toNat ≤ 126 then String.singleton c
  else if c.toNat < 65536 then "\\u" ++ hex4 c.toNat
  else
    "\\u" ++ hex4 (55296 + (c.toNat - 65536) / 1024)
      ++ "\\u" ++ hex4 (56320 + (c.toNat - 65536) % 1024)

/-- Body of a serialized JSON string. -/
def escapeString (s : String) : String :=
  String.join (s.toList.map escapeChar)

/-- The indentation prefix at nesting depth `n` for `indent=2`. -/
def indentStr (n : Nat) : String :=
  String.join (List.replicate n "  ")

mutual

/-- Serialization of one JSON value at nesting depth `d`, following
json.dumps(..., indent=2): with an indent the item separator is ","
followed by a newline, the key separator is ": ", and empty containers
stay on one line. -/
def dumpsJson (d : Nat) : Json → String
  | .null => "null"
  | .bool true => "true"
  | .bool false => "false"
  | .num lit => lit
  | .str s => "\"" ++ escapeString s ++ "\""
  | .arr [] => "[]"
  | .arr (e :: es) =>
      "[\n" ++ dumpsItems (d + 1) (e :: es) ++ "\n" ++ indentStr d ++ "]"
  | .obj [] => "\x7b\x7d"
  | .obj (f :: fs) =>
      "\x7b\n" ++ dumpsFields (d + 1) (f :: fs) ++ "\n" ++ indentStr d ++ "\x7d"

/-- Comma-and-newline separated array items, each indented to depth `d`. -/
def dumpsItems (d : Nat) : List Json → String
  | [] => ""
  | [e] => indentStr d ++ dumpsJson d e
  | e :: e2 :: es =>
      indentStr d ++ dumpsJson d e ++ ",\n" ++ dumpsItems d (e2 :: es)

/-- Comma-and-newline separated object entries, each indented to depth
`d`, with ": " between key and value. -/
def dumpsFields (d : Nat) : List (String × Json) → String
  | [] => ""
  | [(k, v)] => indentStr d ++ "\"" ++ escapeString k ++ "\": " ++ dumpsJson d v
  | (k, v) :: f :: fs =>
      indentStr d ++ "\"" ++ escapeString k ++ "\": " ++ dumpsJson d v
        ++ ",\n" ++ dumpsFields d (f :: fs)

end

/-- Python json.dumps(data, indent=2) for a list of records. -/
def dumps (data : List Json) : String :=
  dumpsJson 0 (.arr data)

/-- Python str.encode of a string as its UTF-8 bytes. -/
def encodeUTF8 (s : String) : List UInt8 :=
  s.toUTF8.toList

namespace S3Client

/-- A botocore ClientError as observed by s3_client.py: the error code
found at response["Error"]["Code"] when present, and str(e). -/
structure ClientError where
  code : Option String
  msg : String

/-- s3_client.py, S3Client.object_exists: head_object succeeding returns
True; on ClientError, an error code of "404" returns False, and any
other ClientError is re-raised as
S3Error("Error checking object existence: " + str(e)). -/
def object_exists (headRes : Except ClientError Unit) : Except PyExn Bool :=
  match headRes with
  | .ok _ => .ok true
  | .error e =>
      if e.code = some "404" then .ok false
      else .error ⟨.s3Error, "Error checking object existence: " ++ e.msg⟩

end S3Client

namespace ETLProcessor

/-- The `try` body of etl_processor.py ETLProcessor.extract.  Its
argument holds the combined outcome of
`json.loads(self.s3_client.read_object(...).decode("utf-8"))`: an
S3Error from the read, a UnicodeDecodeError from the decode or a
JSONDecodeError from the parse on the error side, or the decoded value.
A dict is wrapped into a one-element list, a list is returned directly,
and any other shape raises ETLError with the f-string naming type(data). -/
def extractBody (src : Except PyExn Json) : Except PyExn (List Json) :=
  match src with
  | .error e => .error e
  | .ok data =>
      match data with
      | .obj fields => .ok [.obj fields]
      | .arr elems => .ok elems
      | other => .error ⟨.etlError, "Unexpected data format: " ++ other.pyTypeName⟩

/-- etl_processor.py, ETLProcessor.extract: the body's exceptions fall
through its two handlers in order — a JSONDecodeError becomes
ETLError("Failed to parse JSON data: " + str(e)), and every other
exception (the ETLError raised for an unexpected shape included, since
the body has no ETLError handler) becomes
ETLError("Extraction failed: " + str(e)). -/
def extract (src : Except PyExn Json) : Except PyExn (List Json) :=
  match extractBody src with
  | .ok data => .ok data
  | .error e =>
      if e.kind.isInstanceOf .jsonDecodeError then
        .error ⟨.etlError, "Failed to parse JSON data: " ++ e.msg⟩
      else
        .error ⟨.etlError, "Extraction failed: " ++ e.msg⟩

/-- etl_processor.py, ETLProcessor.transform: delegates to
transformer.transform_batch and wraps any exception as
ETLError("Transformation failed: " + str(e)). -/
def transform (data : List Json) : Except PyExn (List Json) :=
  match TripTransformer.transform_batch data with
  | .ok out => .ok out
  | .error e => .error ⟨.etlError, "Transformation failed: " ++ e.msg⟩

/-- etl_processor.py, ETLProcessor.load: serializes the batch with
json.dumps(data, indent=2), encodes it as UTF-8 and hands the bytes to
write_object; `writeRes` holds that call's outcome.  On success the
value is the byte content written to the destination; any exception is
wrapped as ETLError("Loading failed: " + str(e)). -/
def load (data : List Json) (writeRes : Except PyExn Unit) :
    Except PyExn (List UInt8) :=
  match writeRes with
  | .ok _ => .ok (encodeUTF8 (dumps data))
  | .error e => .error ⟨.etlError, "Loading failed: " ++ e.msg⟩

/-- The `try` body of ETLProcessor.run: extract, then transform, then
load, the first exception propagating. -/
def runBody (src : Except PyExn Json) (writeRes : Except PyExn Unit) :
    Except PyExn (List UInt8) :=
  match extract src with
  | .error e => .error e
  | .ok data =>
      match transform data with
      | .error e => .error e
      | .ok transformed => load transformed writeRes

/-- etl_processor.py, ETLProcessor.run: `except ETLError: raise`
re-raises an ETLError (any instance of that class) unchanged, and
`except Exception` wraps everything else as
ETLError("ETL pipeline failed: " + str(e)).  On success the value is
the byte content of the destination blob. -/
def run (src : Except PyExn Json) (writeRes : Except PyExn Unit) :
    Except PyExn (List UInt8) :=
  match runBody src writeRes with
  | .ok content => .ok content
  | .error e =>
      if e.kind.isInstanceOf .etlError then .error e
      else .error ⟨.etlError, "ETL pipeline failed: " ++ e.msg⟩

end ETLProcessor

namespace Main

/-- Which of main.py's except clauses reports a raised exception. -/
inductive HandlerClause where
  | configClause
  | etlClause
  | genericClause
  deriving DecidableEq, Repr

/-- main.py's handler chain in source order: `except ConfigurationError`
first, then `except ETLError`, then `except Exception`; the first clause
whose class the exception is an instance of handles it. -/
def mainHandler (k : ExnKind) : HandlerClause :=
  if k.isInstanceOf .configurationError then .configClause
  else if k.isInstanceOf .etlError then .etlClause
  else .genericClause

/-- The same two specific clauses in the opposite order, used to state
that main.py's distinction between the two kinds comes only from clause
order: with ETLError listed first, a ConfigurationError would be
reported by the ETLError clause. -/
def mainHandlerEtlFirst (k : ExnKind) : HandlerClause :=
  if k.isInstanceOf .etlError then .etlClause
  else if k.isInstanceOf .configurationError then .configClause
  else .genericClause

end Main

/-! Helper lemmas. -/

/-- Every exception transform_row raises is a TransformationError. -/
theorem transform_row_error_kind (r : Json) (e : PyExn)
    (h : TripTransformer.transform_row r = .error e) :
    e.kind = .transformationError := by
  cases r <;> simp [TripTransformer.transform_row, pyCopy] at h <;>
    (subst h; rfl)

/-- Every exception the comprehension propagates is a TransformationError. -/
theorem transformRows_error_kind (rows : List Json) (e : PyExn)
    (h : TripTransformer.transformRows rows = .error e) :
    e.kind = .transformationError := by
  induction rows with
  | nil => simp [TripTransformer.transformRows] at h
  | cons r rest ih =>
      unfold TripTransformer.transformRows at h
      cases hr : TripTransformer.transform_row r with
      | error e1 =>
          rw [hr] at h
          cases h
          exact transform_row_error_kind r e hr
      | ok v =>
          rw [hr] at h
          cases hrest : TripTransformer.transformRows rest with
          | error e2 =>
              rw [hrest] at h
              cases h
              exact ih hrest
          | ok vs => rw [hrest] at h; cases h

/-- Every exception transform_batch raises is a TransformationError. -/
theorem transform_batch_error_kind (rows : List Json) (e : PyExn)
    (h : TripTransformer.transform_batch rows = .error e) :
    e.kind = .transformationError := by
  unfold TripTransformer.transform_batch at h
  split at h
  · cases h
  · rename_i e1 heq
    split at h
    · cases h
      exact transformRows_error_kind rows _ heq
    · cases h
      rfl

/-- On a list of dicts the comprehension returns the list itself. -/
theorem transformRows_objs (rows : List Json)
    (h : ∀ r ∈ rows, ∃ fields, r = Json.obj fields) :
    TripTransformer.transformRows rows = .ok rows := by
  induction rows with
  | nil => rfl
  | cons r rest ih =>
      obtain ⟨fields, rfl⟩ := h _ (List.mem_cons_self r rest)
      have hrest := ih (fun x hx => h x (List.mem_cons_of_mem _ hx))
      simp [TripTransformer.transformRows, TripTransformer.transform_row,
            pyCopy, hrest]

/-! Claim theorems. -/

/-- C1: for every list of records (dict-shaped elements), transform_batch
returns the input list itself — same length, i-th output equal to i-th
input, order preserved — and transform_row on any record returns a record
equal to its input. -/
theorem C1_transform_batch_identity (rows : List Json)
    (h : ∀ r ∈ rows, ∃ fields, r = Json.obj fields) :
    TripTransformer.transform_batch rows = .ok rows ∧
    (∀ fields, TripTransformer.transform_row (Json.obj fields) =
      .ok (Json.obj fields)) ∧
    ∃ out, TripTransformer.transform_batch rows = .ok out ∧
      out.length = rows.length ∧
      ∀ i (hi : i < out.length) (hi2 : i < rows.length),
        out.get ⟨i, hi⟩ = rows.get ⟨i, hi2⟩ := by
  have hbatch : TripTransformer.transform_batch rows = .ok rows := by
    unfold TripTransformer.transform_batch
    rw [transformRows_objs rows h]
  exact ⟨hbatch, fun fields => rfl, rows, hbatch, rfl, fun i hi hi2 => rfl⟩

/-- Witness for C1 at the one-record batch containing the dict with the
single field "a" ↦ 1. -/
theorem C1_transform_batch_identity_witness :
    TripTransformer.transform_batch [Json.obj [("a", Json.num "1")]] =
      .ok [Json.obj [("a", Json.num "1")]] :=
  (C1_transform_batch_identity [Json.obj [("a", Json.num "1")]]
    (by intro r hr; rw [List.mem_singleton] at hr; exact ⟨_, hr⟩)).1

/-- C3: extract of a decoded single JSON object yields the one-element
batch holding exactly that object; extract of a decoded JSON array
yields that array directly, order preserved; in particular for the
spec's two examples. -/
theorem C3_extract_shapes :
    (∀ fields, ETLProcessor.extract (.ok (.obj fields)) = .ok [.obj fields]) ∧
    (∀ elems, ETLProcessor.extract (.ok (.arr elems)) = .ok elems) ∧
    ETLProcessor.extract (.ok (.obj [("a", .num "1")])) =
      .ok [.obj [("a", .num "1")]] ∧
    ETLProcessor.extract
        (.ok (.arr [.obj [("a", .num "1")], .obj [("a", .num "2")]])) =
      .ok [.obj [("a", .num "1")], .obj [("a", .num "2")]] :=
  ⟨fun _ => rfl, fun _ => rfl, rfl, rfl⟩

/-- C4: load serializes the batch with json.dumps(…, indent=2), encodes
it as UTF-8 and writes exactly those bytes; the pretty-printed form of
the spec's example is the expected five-line array; and end to end, the
source object with trip_id "t1" and miles 4.2 produces a destination
blob equal to the UTF-8 bytes of that pretty-printed one-element array. -/
theorem C4_load_serialization :
    (∀ data, ETLProcessor.load data (.ok ()) = .ok (encodeUTF8 (dumps data))) ∧
    dumps [Json.obj [("trip_id", .str "t1"), ("miles", .num "4.2")]] =
      "[\n  \x7b\n    \"trip_id\": \"t1\",\n    \"miles\": 4.2\n  \x7d\n]" ∧
    ETLProcessor.run
        (.ok (.obj [("trip_id", .str "t1"), ("miles", .num "4.2")])) (.ok ()) =
      .ok (encodeUTF8
        "[\n  \x7b\n    \"trip_id\": \"t1\",\n    \"miles\": 4.2\n  \x7d\n]") :=
  ⟨fun _ => rfl, rfl, rfl⟩

/-- C9: S3Error, ConfigurationError and TransformationError are all
instances of ETLError, so a handler for ETLError also observes
configuration errors; main.py reports a ConfigurationError through its
own clause only because that clause is listed before the ETLError
clause — with the order swapped the ETLError clause would take it. -/
theorem C9_exception_hierarchy :
    ExnKind.isInstanceOf .s3Error .etlError = true ∧
    ExnKind.isInstanceOf .configurationError .etlError = true ∧
    ExnKind.isInstanceOf .transformationError .etlError = true ∧
    Main.mainHandler .configurationError = .configClause ∧
    Main.mainHandlerEtlFirst .configurationError = .etlClause := by
  decide

/-- C10: on any record that is a well-formed mapping (a dict), the copy
succeeds, transform_row returns normally with a record equal to its
input, and its TransformationError branch is unreachable. -/
theorem C10_transform_row_total (fields : List (String × Json)) :
    TripTransformer.transform_row (.obj fields) = .ok (.obj fields) ∧
    ∃ out, TripTransformer.transform_row (.obj fields) = .ok out :=
  ⟨rfl, .obj fields, rfl⟩

/-- C2: run re-raises an exception that is an ETLError instance
unchanged and wraps any other fault as a fresh
ETLError("ETL pipeline failed: …"); and at each phase boundary an
S3Error from the read, a TransformationError from the transformer, or an
S3Error from the write is re-raised as a plain ETLError that embeds the
original message text while losing the finer-grained kind. -/
theorem C2_run_error_wrapping :
    (∀ src w e, ETLProcessor.runBody src w = .error e →
      e.kind.isInstanceOf .etlError = true →
      ETLProcessor.run src w = .error e) ∧
    (∀ src w e, ETLProcessor.runBody src w = .error e →
      e.kind.isInstanceOf .etlError = false →
      ETLProcessor.run src w =
        .error ⟨.etlError, "ETL pipeline failed: " ++ e.msg⟩) ∧
    (∀ m, ETLProcessor.extract (.error ⟨.s3Error, m⟩) =
      .error ⟨.etlError, "Extraction failed: " ++ m⟩) ∧
    (∀ rows e, TripTransformer.transform_batch rows = .error e →
      e.kind = .transformationError ∧
      ETLProcessor.transform rows =
        .error ⟨.etlError, "Transformation failed: " ++ e.msg⟩) ∧
    (∀ data m, ETLProcessor.load data (.error ⟨.s3Error, m⟩) =
      .error ⟨.etlError, "Loading failed: " ++ m⟩) := by
  refine ⟨?_, ?_, fun m => rfl, ?_, fun data m => rfl⟩
  · intro src w e h hk
    unfold ETLProcessor.run
    rw [h]
    simp [hk]
  · intro src w e h hk
    unfold ETLProcessor.run
    rw [h]
    simp [hk]
  · intro rows e h
    refine ⟨transform_batch_error_kind rows e h, ?_⟩
    unfold ETLProcessor.transform
    rw [h]

/-- Witness for C2: an S3Error "boom" failing the source read surfaces
from run as a plain ETLError embedding the message. -/
theorem C2_run_error_wrapping_witness :
    ETLProcessor.run (.error ⟨.s3Error, "boom"⟩) (.ok ()) =
      .error ⟨.etlError, "Extraction failed: boom"⟩ :=
  C2_run_error_wrapping.1 (.error ⟨.s3Error, "boom"⟩) (.ok ())
    ⟨.etlError, "Extraction failed: boom"⟩ rfl rfl

/-- C5: validate succeeds exactly when the five required fields are
non-empty and the uppercased log level is in the valid set; every
failure is a ConfigurationError; and the first offending condition in
check order determines the message, which names that field. -/
theorem C5_validate_spec (c : Config) :
    (Config.validate c = .ok () ↔
      (c.aws_region ≠ "" ∧ c.source_bucket ≠ "" ∧ c.source_key ≠ "" ∧
       c.destination_bucket ≠ "" ∧ c.destination_key ≠ "" ∧
       c.log_level.toUpper ∈ valid_log_levels)) ∧
    (∀ e, Config.validate c = .error e → e.kind = .configurationError) ∧
    (c.aws_region = "" →
      Config.validate c =
        .error ⟨.configurationError, "AWS region cannot be empty"⟩) ∧
    (c.aws_region ≠ "" → c.source_bucket = "" →
      Config.validate c =
        .error ⟨.configurationError, "Source bucket cannot be empty"⟩) ∧
    (c.aws_region ≠ "" → c.source_bucket ≠ "" → c.source_key = "" →
      Config.validate c =
        .error ⟨.configurationError, "Source key cannot be empty"⟩) ∧
    (c.aws_region ≠ "" → c.source_bucket ≠ "" → c.source_key ≠ "" →
      c.destination_bucket = "" →
      Config.validate c =
        .error ⟨.configurationError, "Destination bucket cannot be empty"⟩) ∧
    (c.aws_region ≠ "" → c.source_bucket ≠ "" → c.source_key ≠ "" →
      c.destination_bucket ≠ "" → c.destination_key = "" →
      Config.validate c =
        .error ⟨.configurationError, "Destination key cannot be empty"⟩) ∧
    (c.aws_region ≠ "" → c.source_bucket ≠ "" → c.source_key ≠ "" →
      c.destination_bucket ≠ "" → c.destination_key ≠ "" →
      c.log_level.toUpper ∉ valid_log_levels →
      Config.validate c = .error ⟨.configurationError,
        "Invalid log level: " ++ c.log_level ++ ". Must be one of "
          ++ pyStrListRepr valid_log_levels⟩) := by
  unfold Config.validate
  split_ifs with h1 h2 h3 h4 h5 h6 <;> simp_all

/-- Witness for C5: a configuration with a blank region fails naming the
region. -/
theorem C5_validate_spec_witness :
    Config.validate ⟨"", "b", "k", "db", "dk", none, none, "INFO"⟩ =
      .error ⟨.configurationError, "AWS region cannot be empty"⟩ :=
  (C5_validate_spec ⟨"", "b", "k", "db", "dk", none, none, "INFO"⟩).2.2.1 rfl

/-- C6: the pipeline is deterministic in its source — two runs over the
same source outcome and write outcome produce the same destination
bytes. -/
theorem C6_run_deterministic (src : Except PyExn Json) (w : Except PyExn Unit)
    (c1 c2 : List UInt8)
    (h1 : ETLProcessor.run src w = .ok c1)
    (h2 : ETLProcessor.run src w = .ok c2) : c1 = c2 := by
  rw [h1] at h2
  injection h2

/-- Witness for C6 at the source blob holding the empty JSON object. -/
theorem C6_run_deterministic_witness :
    encodeUTF8 "[\n  \x7b\x7d\n]" = encodeUTF8 "[\n  \x7b\x7d\n]" :=
  C6_run_deterministic (.ok (.obj [])) (.ok ())
    (encodeUTF8 "[\n  \x7b\x7d\n]") (encodeUTF8 "[\n  \x7b\x7d\n]") rfl rfl

/-- C7: object_exists answers false exactly when head_object failed with
error code "404"; every other ClientError is re-raised as S3Error rather
than coerced to false; a successful head answers true. -/
theorem C7_object_exists (headRes : Except S3Client.ClientError Unit) :
    (S3Client.object_exists headRes = .ok false ↔
      ∃ e, headRes = .error e ∧ e.code = some "404") ∧
    (∀ e, headRes = .error e → e.code ≠ some "404" →
      S3Client.object_exists headRes =
        .error ⟨.s3Error, "Error checking object existence: " ++ e.msg⟩) ∧
    (headRes = .ok () → S3Client.object_exists headRes = .ok true) := by
  cases headRes with
  | ok u =>
      refine ⟨by simp [S3Client.object_exists], ?_, fun _ => rfl⟩
      intro e he
      cases he
  | error e =>
      by_cases hc : e.code = some "404"
      · refine ⟨?_, ?_, ?_⟩
        · simp [S3Client.object_exists, hc]
        · intro e2 he2 hne
          cases he2
          exact absurd hc hne
        · intro h
          cases h
      · refine ⟨?_, ?_, ?_⟩
        · simp [S3Client.object_exists, hc]
        · intro e2 he2 hne
          cases he2
          simp [S3Client.object_exists, hc]
        · intro h
          cases h

/-- Witness for C7: a ClientError with a non-404 code is re-raised as
S3Error, and one with code "404" yields false. -/
theorem C7_object_exists_witness :
    S3Client.object_exists (.error ⟨some "AccessDenied", "denied"⟩) =
      .error ⟨.s3Error, "Error checking object existence: denied"⟩ ∧
    S3Client.object_exists (.error ⟨some "404", "not found"⟩) = .ok false :=
  ⟨(C7_object_exists (.error ⟨some "AccessDenied", "denied"⟩)).2.1
      ⟨some "AccessDenied", "denied"⟩ rfl (by decide),
   (C7_object_exists (.error ⟨some "404", "not found"⟩)).1.mpr
      ⟨⟨some "404", "not found"⟩, rfl, rfl⟩⟩

/-- C8: extract of a decoded JSON value that is neither an object nor an
array fails with an ETLError whose message cites the unexpected type, in
particular for the spec's bare-string example. -/
theorem C8_extract_bad_shape (v : Json)
    (hobj : ∀ fields, v ≠ .obj fields) (harr : ∀ elems, v ≠ .arr elems) :
    ETLProcessor.extract (.ok v) =
      .error ⟨.etlError, "Extraction failed: Unexpected data format: "
        ++ v.pyTypeName⟩ ∧
    ETLProcessor.extract (.ok (.str "not an object or array")) =
      .error ⟨.etlError,
        "Extraction failed: Unexpected data format: <class \x27str\x27>"⟩ := by
  refine ⟨?_, rfl⟩
  cases v with
  | obj fields => exact absurd rfl (hobj fields)
  | arr elems => exact absurd rfl (harr elems)
  | null => rfl
  | bool b => rfl
  | num lit => rfl
  | str s => rfl

/-- Witness for C8: a bare JSON number is rejected citing the int type. -/
theorem C8_extract_bad_shape_witness :
    ETLProcessor.extract (.ok (.num "7")) =
      .error ⟨.etlError,
        "Extraction failed: Unexpected data format: <class \x27int\x27>"⟩ :=
  (C8_extract_bad_shape (.num "7") (fun _ h => Json.noConfusion h)
    (fun _ h => Json.noConfusion h)).1
